import Mathlib

/-!
Verification of the Recipe Execution Engine of the DRAGONS repository,
as implemented in `astrodata/RecipeManager.py`.

The Python classes `ContextObject` and `RecipeLibrary` are shallowly
embedded: mutable objects become Lean structures threaded explicitly,
Python `raise` becomes `Except.error`, Python dictionaries become
total functions into `Option`/`List`, and `datetime.now()` timestamps
become explicit `Nat` parameters supplied by the caller.
-/

set_option autoImplicit false

namespace RecipeManager

/-- Runtime errors a method of `RecipeManager.py` can raise: the module's
own `RecipeExcept` class (which carries a message), and Python's built-in
`NameError` raised when an unbound local or global name is referenced. -/
inductive PyErr where
  | recipeExcept (msg : String)
  | nameError (nm : String)
  deriving DecidableEq, Repr

/-- Python values that can be passed as the `filename` argument of
`ContextObject.reportOutput`: the code dispatches on `type(filename)`,
distinguishing `str` and `list`; any other runtime type falls through. -/
inductive PyVal where
  | str (s : String)
  | list (l : List String)
  | pyNone
  | int (n : Int)
  deriving DecidableEq, Repr

/-- True exactly when the value is a Python `str` (`type(filename) == str`). -/
def PyVal.isStr : PyVal → Bool
  | .str _ => true
  | _ => false

/-- True exactly when the value is a Python `list` (`type(filename) == list`). -/
def PyVal.isList : PyVal → Bool
  | .list _ => true
  | _ => false

/-- The dictionary value stored in `ContextObject.stephistory` by
`ContextObject.stepMoment` (RecipeManager.py lines 183-191): step name,
the indent level at the moment of the call, the mark (`"begin"`/`"end"`),
deep copies of the current inputs and outputs, and a processed flag. -/
structure StepMoment where
  stepname : String
  indent : Int
  mark : String
  inputs : List String
  outputs : String → List String
  processed : Bool

/-- The mutable state of a Python `ContextObject` (RecipeManager.py lines
35-65).  The `outputs` dictionary is modelled as a total function from
category name to file list (the constructor maps every category to the
empty list, matching the initial `{"standard": []}` in that no category
holds a file); `calibrations` maps a `(filename, caltype)` key to the
calibration name when present; `stephistory` is an association list from
timestamp keys to `StepMoment` values with dictionary update semantics.
The `cdl` field (an external `CalibrationDefinitionLibrary` collaborator
used only by `rqCal`) is outside the embedded operations and is omitted. -/
structure ContextObject where
  inputs : List String
  originalInputs : Option (List String)
  inputsHistory : List String
  outputs : String → List String
  calibrations : String × String → Option String
  calrqs : List String
  status : String
  reason : String
  cmdRequest : String
  hostname : String
  stephistory : List (Nat × StepMoment)
  indent : Int
  lastBeginDt : Option Nat

/-- `ContextObject.__init__` (lines 52-65): empty collections, the class
defaults `status = reason = "EXTANT"` and `cmdRequest = "NONE"`, the host
name from `socket.gethostname()` (passed in as a parameter), `indent = 0`. -/
def initContext (host : String) : ContextObject :=
  { inputs := []
    originalInputs := none
    inputsHistory := []
    outputs := fun _ => []
    calibrations := fun _ => none
    calrqs := []
    status := "EXTANT"
    reason := "EXTANT"
    cmdRequest := "NONE"
    hostname := host
    stephistory := []
    indent := 0
    lastBeginDt := none }

/-- `ContextObject.reportOutput` (lines 146-154): any category other than
`"standard"` raises `RecipeExcept` before any mutation; for the standard
category a `str` filename is appended, a `list` filename is extended onto
the standard list, and any other runtime type falls through silently. -/
def reportOutput (ctx : ContextObject) (filename : PyVal) (category : String) :
    Except PyErr ContextObject :=
  if category ≠ "standard" then
    .error (.recipeExcept "You may only use 'standard' category output at this time.")
  else
    match filename with
    | .str s =>
        .ok { ctx with outputs := fun c =>
                if c = "standard" then ctx.outputs "standard" ++ [s] else ctx.outputs c }
    | .list l =>
        .ok { ctx with outputs := fun c =>
                if c = "standard" then ctx.outputs "standard" ++ l else ctx.outputs c }
    | _ => .ok ctx

/-- `ContextObject.finalizeOutputs` (lines 155-168): when the standard
output list is non-empty it snapshots `originalInputs` if still `None`,
moves the standard outputs into `inputs`, and resets the standard output
list to empty; otherwise it does nothing. -/
def finalizeOutputs (ctx : ContextObject) : ContextObject :=
  if ctx.outputs "standard" ≠ [] then
    let orig := match ctx.originalInputs with
      | none => some ctx.inputs
      | some o => some o
    { ctx with
        originalInputs := orig
        inputs := ctx.outputs "standard"
        outputs := fun c => if c = "standard" then [] else ctx.outputs c }
  else ctx

/-- After `finalizeOutputs` the standard output list is always empty or
was empty already and is untouched. -/
theorem finalizeOutputs_outputs_standard (ctx : ContextObject) :
    (finalizeOutputs ctx).outputs "standard" = [] ∨ finalizeOutputs ctx = ctx := by
  unfold finalizeOutputs
  by_cases h : ctx.outputs "standard" = []
  · right
    simp [h]
  · left
    simp [h]

/-- `finalizeOutputs` on a context whose standard output list is empty is
the identity. -/
theorem finalizeOutputs_of_empty (ctx : ContextObject)
    (h : ctx.outputs "standard" = []) : finalizeOutputs ctx = ctx := by
  unfold finalizeOutputs
  simp [h]

/-- C4: when the standard output category is non-empty, `finalizeOutputs`
captures `originalInputs` exactly when it was not already captured (taking
a copy of the current inputs), replaces `inputs` with the standard outputs,
empties the standard category, and leaves every non-standard category and
the calibrations map unchanged; when the standard category is empty the
context is returned entirely unchanged. -/
theorem C4_finalizeOutputs_contract (ctx : ContextObject) :
    (ctx.outputs "standard" ≠ [] →
       (finalizeOutputs ctx).originalInputs = some (ctx.originalInputs.getD ctx.inputs)
       ∧ (finalizeOutputs ctx).inputs = ctx.outputs "standard"
       ∧ (finalizeOutputs ctx).outputs "standard" = []
       ∧ (∀ c, c ≠ "standard" → (finalizeOutputs ctx).outputs c = ctx.outputs c)
       ∧ (finalizeOutputs ctx).calibrations = ctx.calibrations)
    ∧ (ctx.outputs "standard" = [] → finalizeOutputs ctx = ctx) := by
  constructor
  · intro h
    unfold finalizeOutputs
    rw [if_pos h]
    refine ⟨?_, rfl, by simp, ?_, rfl⟩
    · cases ctx.originalInputs <;> simp [Option.getD]
    · intro c hc
      simp [hc]
  · intro h
    exact finalizeOutputs_of_empty ctx h

/-- A concrete context with one pending standard output, used to witness C4. -/
def ctxC4 : ContextObject :=
  { initContext "host" with
      inputs := ["r1.fits"]
      outputs := fun c => if c = "standard" then ["x1.fits"] else [] }

/-- C4 witness: the contract evaluated on a concrete context holding one
standard output. -/
theorem C4_finalizeOutputs_contract_witness :
    ctxC4.outputs "standard" ≠ []
    ∧ ((finalizeOutputs ctxC4).originalInputs = some (ctxC4.originalInputs.getD ctxC4.inputs)
       ∧ (finalizeOutputs ctxC4).inputs = ctxC4.outputs "standard"
       ∧ (finalizeOutputs ctxC4).outputs "standard" = []
       ∧ (∀ c, c ≠ "standard" → (finalizeOutputs ctxC4).outputs c = ctxC4.outputs c)
       ∧ (finalizeOutputs ctxC4).calibrations = ctxC4.calibrations) :=
  ⟨by decide, (C4_finalizeOutputs_contract ctxC4).1 (by decide)⟩

/-- C8: `finalizeOutputs` run twice in a row with nothing reported in
between leaves `inputs` exactly as after the first run: the second call is
a no-op on `inputs`. -/
theorem C8_finalizeOutputs_idempotent (ctx : ContextObject) :
    (finalizeOutputs (finalizeOutputs ctx)).inputs = (finalizeOutputs ctx).inputs := by
  rcases finalizeOutputs_outputs_standard ctx with h | h
  · rw [finalizeOutputs_of_empty _ h]
  · rw [h, h]

/-- C5: `reportOutput` with any category other than `"standard"` raises
`RecipeExcept` immediately; since the raise precedes every mutation the
context visible to a caller that catches the exception is untouched. -/
theorem C5_reportOutput_rejects_category (ctx : ContextObject) (filename : PyVal)
    (category : String) (h : category ≠ "standard") :
    reportOutput ctx filename category =
      .error (.recipeExcept "You may only use 'standard' category output at this time.") := by
  unfold reportOutput
  rw [if_pos h]

/-- The context obtained by reporting `["x.fits", "y.fits"]` as standard
output on a fresh context; used to witness C5's scenario. -/
def ctxXY : ContextObject :=
  match reportOutput (initContext "host") (.list ["x.fits", "y.fits"]) "standard" with
  | .ok c => c
  | .error _ => initContext "host"

/-- C5 witness: after `reportOutput(["x.fits", "y.fits"])`, the call
`reportOutput("z.fits", category="nonstandard")` is rejected and the
standard list is still `["x.fits", "y.fits"]`. -/
theorem C5_reportOutput_rejects_category_witness :
    ("nonstandard" : String) ≠ "standard"
    ∧ reportOutput ctxXY (.str "z.fits") "nonstandard" =
        .error (.recipeExcept "You may only use 'standard' category output at this time.")
    ∧ ctxXY.outputs "standard" = ["x.fits", "y.fits"] :=
  ⟨by decide, C5_reportOutput_rejects_category ctxXY (.str "z.fits") "nonstandard" (by decide),
   by decide⟩

/-- C10: `reportOutput` with the standard category and a filename that is
neither a `str` nor a `list` falls through both `type(filename)` checks
and returns with the context completely unchanged, raising nothing. -/
theorem C10_reportOutput_silent_noop (ctx : ContextObject) (v : PyVal)
    (h1 : v.isStr = false) (h2 : v.isList = false) :
    reportOutput ctx v "standard" = .ok ctx := by
  cases v <;> simp_all [reportOutput, PyVal.isStr, PyVal.isList]

/-- C10 witness: reporting Python `None` as standard output is accepted
silently and changes nothing. -/
theorem C10_reportOutput_silent_noop_witness :
    PyVal.pyNone.isStr = false
    ∧ PyVal.pyNone.isList = false
    ∧ reportOutput (initContext "host") PyVal.pyNone "standard" = .ok (initContext "host") :=
  ⟨by decide, by decide,
   C10_reportOutput_silent_noop (initContext "host") PyVal.pyNone (by decide) (by decide)⟩

/-- `ContextObject.isFinished` (lines 67-75): with no argument it reports
whether the status is `"FINISHED"`; called with `True` it sets the status
to `"FINISHED"`; called with any other value it raises `RecipeExcept`
unless the status is already `"FINISHED"`, in which case it falls through
silently; every non-raising setter path returns `self.isFinished()`. -/
def isFinished (ctx : ContextObject) (arg : Option Bool) :
    Except PyErr (Bool × ContextObject) :=
  match arg with
  | none => .ok (ctx.status == "FINISHED", ctx)
  | some a =>
    if a = true then
      let c := { ctx with status := "FINISHED" }
      .ok (c.status == "FINISHED", c)
    else if ctx.status ≠ "FINISHED" then
      .error (.recipeExcept ("Attempt to change status from " ++ ctx.status ++ " to FINISHED"))
    else
      .ok (ctx.status == "FINISHED", ctx)

/-- `ContextObject.finish` (lines 77-78): `self.isFinished(True)`. -/
def finish (ctx : ContextObject) : Except PyErr ContextObject :=
  (isFinished ctx (some true)).map (·.2)

/-- `ContextObject.isPaused` (lines 82-91): with no argument it reports
whether the status is `"PAUSED"`; otherwise it unconditionally sets the
status to `"PAUSED"` (truthy argument) or `"RUNNING"` (falsy argument) —
there is no guard of any kind on the current status. -/
def isPaused (ctx : ContextObject) (bpaused : Option Bool) : Bool × ContextObject :=
  match bpaused with
  | none => (ctx.status == "PAUSED", ctx)
  | some b =>
    let c := { ctx with status := if b then "PAUSED" else "RUNNING" }
    (c.status == "PAUSED", c)

/-- `ContextObject.pause` (lines 93-94): `self.isPaused(True)`. -/
def pause (ctx : ContextObject) : ContextObject :=
  (isPaused ctx (some true)).2

/-- `ContextObject.unpause` (lines 95-96): `self.isPaused(False)`. -/
def unpause (ctx : ContextObject) : ContextObject :=
  (isPaused ctx (some false)).2

/-- A concrete context on which `finish()` has been called. -/
def finishedCtx : ContextObject :=
  match finish (initContext "host") with
  | .ok c => c
  | .error _ => initContext "host"

/-- C3 counterexample: on a context that has been finished, `pause()`
raises nothing and moves the status to `"PAUSED"` — the status does not
remain `"FINISHED"`, so `FINISHED` is not a terminal state in the code. -/
theorem C3_finished_terminal_counterexample :
    finishedCtx.status = "FINISHED"
    ∧ (pause finishedCtx).status = "PAUSED"
    ∧ (pause finishedCtx).status ≠ "FINISHED" :=
  ⟨rfl, rfl, by decide⟩

/-- C3 amended: after `finish()`, setting `finished` to `False` raises no
error and leaves the status `"FINISHED"` (a silent no-op whose getter
still reports finished), while `pause()` and `unpause()` also raise no
error but do change the status to `"PAUSED"` and `"RUNNING"` respectively. -/
theorem C3_finished_not_terminal (ctx : ContextObject) (h : ctx.status = "FINISHED") :
    isFinished ctx (some false) = .ok (true, ctx)
    ∧ (pause ctx).status = "PAUSED"
    ∧ (unpause ctx).status = "RUNNING" := by
  refine ⟨?_, rfl, rfl⟩
  unfold isFinished
  simp [h]

/-- C3 witness: the amended behaviour evaluated on a concrete finished
context. -/
theorem C3_finished_not_terminal_witness :
    finishedCtx.status = "FINISHED"
    ∧ (isFinished finishedCtx (some false) = .ok (true, finishedCtx)
       ∧ (pause finishedCtx).status = "PAUSED"
       ∧ (unpause finishedCtx).status = "RUNNING") :=
  ⟨rfl, C3_finished_not_terminal finishedCtx rfl⟩

/-- `ContextObject.stepMoment` (lines 183-191): builds the history record
from the context's current state — in particular it records the indent
value as it stands at the moment of the call. -/
def stepMoment (ctx : ContextObject) (stepname mark : String) : StepMoment :=
  { stepname := stepname
    indent := ctx.indent
    mark := mark
    inputs := ctx.inputs
    outputs := ctx.outputs
    processed := false }

/-- Python dictionary update `d.update({k: v})` for the step history:
inserts or overwrites the entry at key `k`. -/
def histUpdate (k : Nat) (v : StepMoment) (h : List (Nat × StepMoment)) :
    List (Nat × StepMoment) :=
  (k, v) :: h.filter (fun p => p.1 != k)

/-- Python dictionary lookup `d[k]` for the step history. -/
def histLookup (h : List (Nat × StepMoment)) (k : Nat) : Option StepMoment :=
  (h.find? (fun p => p.1 == k)).map (·.2)

/-- `ContextObject.begin` (lines 193-200): builds the `StepMoment` BEFORE
incrementing the indent (so the begin mark records the pre-increment
value), then increments `indent`, stores the moment under the timestamp
key, and remembers the key in `lastBeginDt`. -/
def begin (ctx : ContextObject) (key : Nat) (stepname : String) : ContextObject :=
  let val := stepMoment ctx stepname "begin"
  let ctx1 := { ctx with indent := ctx.indent + 1 }
  { ctx1 with stephistory := histUpdate key val ctx1.stephistory, lastBeginDt := some key }

/-- `ContextObject.end` (lines 202-211), named `endStep` because `end` is
a Lean keyword: decrements `indent` FIRST, then builds the `StepMoment`
(so the end mark records the post-decrement value), stores it under the
timestamp key, and finally calls `finalizeOutputs`. -/
def endStep (ctx : ContextObject) (key : Nat) (stepname : String) : ContextObject :=
  let ctx1 := { ctx with indent := ctx.indent - 1 }
  let val := stepMoment ctx1 stepname "end"
  let ctx2 := { ctx1 with stephistory := histUpdate key val ctx1.stephistory }
  finalizeOutputs ctx2

/-- `finalizeOutputs` never changes the step history. -/
theorem finalizeOutputs_stephistory (ctx : ContextObject) :
    (finalizeOutputs ctx).stephistory = ctx.stephistory := by
  unfold finalizeOutputs
  by_cases h : ctx.outputs "standard" = [] <;> simp [h]

/-- `finalizeOutputs` never changes the indent level. -/
theorem finalizeOutputs_indent (ctx : ContextObject) :
    (finalizeOutputs ctx).indent = ctx.indent := by
  unfold finalizeOutputs
  by_cases h : ctx.outputs "standard" = [] <;> simp [h]

/-- C9: `begin(s)` followed by `end(s)` restores the indent level to its
value before `begin(s)`; the `StepMoment` recorded by `begin` carries the
pre-increment indent and the one recorded by the matching `end` carries
the post-decrement indent, so the two paired marks record the same value. -/
theorem C9_begin_end_indent (ctx : ContextObject) (s : String) (t1 t2 : Nat)
    (h : t1 ≠ t2) :
    (endStep (begin ctx t1 s) t2 s).indent = ctx.indent
    ∧ (histLookup (endStep (begin ctx t1 s) t2 s).stephistory t1).map (·.indent)
        = some ctx.indent
    ∧ (histLookup (endStep (begin ctx t1 s) t2 s).stephistory t1).map (·.mark)
        = some "begin"
    ∧ (histLookup (endStep (begin ctx t1 s) t2 s).stephistory t2).map (·.indent)
        = some ctx.indent
    ∧ (histLookup (endStep (begin ctx t1 s) t2 s).stephistory t2).map (·.mark)
        = some "end" := by
  have hne : (t2 == t1) = false := by
    simp [Ne.symm h]
  have hne2 : (t1 != t2) = true := by
    simp [h]
  refine ⟨?_, ?_, ?_, ?_, ?_⟩
  · rw [endStep, finalizeOutputs_indent]
    simp [begin]
  · rw [endStep, finalizeOutputs_stephistory]
    simp [begin, histUpdate, histLookup, List.find?, hne, hne2, List.filter, stepMoment]
  · rw [endStep, finalizeOutputs_stephistory]
    simp [begin, histUpdate, histLookup, List.find?, hne, hne2, List.filter, stepMoment]
  · rw [endStep, finalizeOutputs_stephistory]
    simp [begin, histUpdate, histLookup, List.find?, stepMoment]
  · rw [endStep, finalizeOutputs_stephistory]
    simp [begin, histUpdate, histLookup, List.find?, stepMoment]

/-- C9 witness: the begin/end round trip evaluated on a fresh context with
concrete timestamps 0 and 1. -/
theorem C9_begin_end_indent_witness :
    (0 : Nat) ≠ 1
    ∧ ((endStep (begin (initContext "host") 0 "prepare") 1 "prepare").indent
         = (initContext "host").indent
       ∧ (histLookup (endStep (begin (initContext "host") 0 "prepare") 1 "prepare").stephistory
            0).map (·.indent) = some (initContext "host").indent
       ∧ (histLookup (endStep (begin (initContext "host") 0 "prepare") 1 "prepare").stephistory
            0).map (·.mark) = some "begin"
       ∧ (histLookup (endStep (begin (initContext "host") 0 "prepare") 1 "prepare").stephistory
            1).map (·.indent) = some (initContext "host").indent
       ∧ (histLookup (endStep (begin (initContext "host") 0 "prepare") 1 "prepare").stephistory
            1).map (·.mark) = some "end") :=
  ⟨by decide, C9_begin_end_indent (initContext "host") "prepare" 0 1 (by decide)⟩

/-- `RecipeLibrary.retrieveRecipe` (lines 502-524).  `cri` is the module
dictionary `centralRecipeIndex` (recipe key → recipe file path) and
`readf` models reading the text of a recipe file from its path.  A truthy
`astrotype` yields the qualified key `name + "." + astrotype`; a falsy one
(Python `None` or the empty string) yields the literal key
`name + ".None"`.  The qualified key is consulted first, then the bare
name, and a double miss returns `None` without raising. -/
def retrieveRecipe (cri : String → Option String) (readf : String → String)
    (name : String) (astrotype : Option String) : Option String :=
  let akey := match astrotype with
    | some t => if t = "" then name ++ ".None" else name ++ "." ++ t
    | none => name ++ ".None"
  let key := name
  match cri akey with
  | some fname => some (readf fname)
  | none =>
    match cri key with
    | some fname => some (readf fname)
    | none => none

/-- C6: for a non-empty requested type, `retrieveRecipe` returns the
type-qualified entry when registered, else the untyped entry for the bare
name, else `None` — exactly `Option.or` of the two index lookups, with no
error raised on a miss. -/
theorem C6_retrieveRecipe_precedence (cri : String → Option String)
    (readf : String → String) (name t : String) (h : t ≠ "") :
    retrieveRecipe cri readf name (some t) =
      ((cri (name ++ "." ++ t)).or (cri name)).map readf := by
  simp only [retrieveRecipe, if_neg h]
  cases cri (name ++ "." ++ t) <;> cases cri name <;> simp [Option.or]

/-- A recipe index holding only the type-qualified recipe
`makeProcessedDark.GSAOI`, as the claim's scenario prescribes. -/
def gsaoiCri : String → Option String := fun k =>
  if k = "makeProcessedDark.GSAOI" then some "/recipes/recipe.makeProcessedDark.GSAOI"
  else none

/-- File contents for the scenario index. -/
def gsaoiRead : String → String := fun _ => "prepare\n"

/-- C6 witness: a recipe registered only for `GSAOI` is not found when
requested for `GMOS_IMAGE`, while the `GSAOI` request returns its text. -/
theorem C6_retrieveRecipe_precedence_witness :
    ("GMOS_IMAGE" : String) ≠ ""
    ∧ retrieveRecipe gsaoiCri gsaoiRead "makeProcessedDark" (some "GMOS_IMAGE") = none :=
  ⟨by decide,
   Eq.trans
     (C6_retrieveRecipe_precedence gsaoiCri gsaoiRead "makeProcessedDark" "GMOS_IMAGE"
       (by decide))
     (by decide)⟩

/-- Python `str.splitlines` restricted to `"\n"` separators: no trailing
empty line is produced when the text ends in a newline, and the empty
string yields no lines. -/
def pySplitlines (s : String) : List String :=
  if s = "" then []
  else
    let parts := s.splitOn "\n"
    if s.endsWith "\n" then parts.dropLast else parts

/-- Python `str.strip()`: drop leading and trailing whitespace. -/
def pyStrip (s : String) : String := s.trim

/-- The code fragment `composeRecipe` emits for one recipe line (lines
613-615): a substep loop invoking the primitive named by the line. -/
def composeStepCode (line : String) : String :=
  "\n\tfor co in self.substeps('" ++ line ++ "', cfgObj):\n\t\tyield co"

/-- The loop of `RecipeLibrary.composeRecipe` (lines 606-616): iterate over
the lines of the recipe text, strip each, skip it when empty or when its
first character is `#`, and append the substep fragment otherwise. -/
def composeRecipeLines (recipebuffer : String) : String :=
  (pySplitlines recipebuffer).foldl
    (fun lines l =>
      let line := pyStrip l
      if line = "" then lines
      else if line.front = '#' then lines
      else lines ++ composeStepCode line)
    ""

/-- `RecipeLibrary.composeRecipe` (lines 598-621): instantiate the
function template with the recipe name and the generated substep lines. -/
def composeRecipe (name : String) (recipebuffer : String) : String :=
  "\ndef " ++ name ++ "(self,cfgObj):\n\tprint \"RECIPE STARTS " ++ name ++ "\"\n"
    ++ composeRecipeLines recipebuffer
    ++ "\n\tprint \"RECIPE ENDS   " ++ name ++ "\"\n\tyield cfgObj\n"

/-- The step sequence the spec ascribes to a recipe text: one step per
line that is neither blank (after stripping) nor a `#` comment, named by
the line's (stripped) primitive name, in textual order. -/
def specRecipeSteps (text : String) : List String :=
  (pySplitlines text).filterMap (fun l =>
    let line := pyStrip l
    if line = "" then none
    else if line.front = '#' then none
    else some line)

/-- Concatenation of a list of strings, in order. -/
def concatAll : List String → String
  | [] => ""
  | s :: r => s ++ concatAll r

/-- String append is associative (via the underlying character lists). -/
theorem strAppend_assoc (a b c : String) : (a ++ b) ++ c = a ++ (b ++ c) := by
  apply String.ext
  simp

/-- The fold of `composeRecipeLines` emits exactly the fragments of the
kept lines, in order, appended after the accumulator. -/
theorem composeFold_eq (ls : List String) (acc : String) :
    ls.foldl
      (fun lines l =>
        let line := pyStrip l
        if line = "" then lines
        else if line.front = '#' then lines
        else lines ++ composeStepCode line)
      acc
    = acc ++ concatAll ((ls.filterMap (fun l =>
        let line := pyStrip l
        if line = "" then none
        else if line.front = '#' then none
        else some line)).map composeStepCode) := by
  induction ls generalizing acc with
  | nil =>
    apply String.ext
    simp [concatAll]
  | cons l ls ih =>
    simp only [List.foldl, List.filterMap]
    by_cases h1 : pyStrip l = ""
    · rw [ih]
      simp [h1]
    · by_cases h2 : (pyStrip l).front = '#'
      · rw [ih]
        simp [h1, h2]
      · rw [ih]
        simp only [h1, h2, if_false, ite_false]
        simp [h1, h2, concatAll, strAppend_assoc]

/-- C7: the substep block generated by `composeRecipe` is exactly the
concatenation, in textual order, of one invocation fragment per recipe
line that survives the blank/comment filter, each naming that line's
stripped primitive name. -/
theorem C7_composeRecipe_steps (text : String) :
    composeRecipeLines text = concatAll ((specRecipeSteps text).map composeStepCode) := by
  unfold composeRecipeLines specRecipeSteps
  rw [composeFold_eq]
  simp

/-- Python runtime values relevant to `openIfName`: a string filename, an
`AstroData` instance, the built-in `file` type object (which line 539 of
`retrieveReductionObject` passes by mistake instead of its `dataset`
parameter), or anything else. -/
inductive PyObj where
  | str (s : String)
  | astroData
  | builtinFile
  | other
  deriving DecidableEq, Repr

/-- `openIfName` (lines 380-396): a `str` is opened as a `GeminiData`
(needs closing), an `AstroData` instance is passed through, and every
other runtime value raises `RecipeExcept`. -/
def openIfName (dataset : PyObj) : Except PyErr (PyObj × Bool) :=
  match dataset with
  | .str s => .ok (.str s, true)
  | .astroData => .ok (.astroData, false)
  | _ => .error (.recipeExcept
      "BadArgument in recipe utility function: openIfName(..)\n MUST be filename (string) or GeminiData instrument")

/-- The local variables of the type loop of `retrieveReductionObject`
(lines 541-573) that survive from one iteration to the next: `rpathname`
(`none` while the Python local is still unbound) and the running winner
`(rotyp, ropath)` once assigned. -/
structure ResolveState where
  rpathname : Option String
  winner : Option (String × String)
  deriving DecidableEq, Repr

/-- One iteration of the loop body (lines 543-573), faithful to the
source's control flow.  `primIndex` is `centralPrimitivesIndex` (type →
(reduction file name, class name)), `redMap` is `centralReductionMap`
(file name → path), `isSub` is `ClassificationLibrary` subtype testing.
Three behaviours of the source are preserved exactly: a type missing from
`centralReductionMap` raises `RecipeExcept "Error in centralReductionMap"`;
`newropath = rpathname` raises `NameError` when no earlier iteration
bound `rpathname`; and the entire branch where the new candidate is not a
subtype of the current winner raises `NameError`, because its first
statement reads the unbound name `cl` (line 568) — so neither the
"winner kept" case nor the `CONFLICTING PRIMITIVES ASSIGNMENT` raise
(whose message itself reads the unbound name `newrotype`, line 573) is
ever reached. -/
def resolveStep (primIndex : String → Option (String × String))
    (redMap : String → Option String) (isSub : String → String → Bool)
    (st : ResolveState) (typ : String) : Except PyErr ResolveState := do
  let rpathname ←
    match primIndex typ with
    | some (rfilename, _) =>
      match redMap rfilename with
      | some p => pure (some p)
      | none => throw (PyErr.recipeExcept "Error in centralReductionMap")
    | none => pure st.rpathname
  let newropath ←
    match rpathname with
    | some p => pure p
    | none => throw (PyErr.nameError "rpathname")
  match st.winner with
  | none => pure { rpathname := rpathname, winner := some (typ, newropath) }
  | some (rotyp, _) =>
    if isSub typ rotyp then
      pure { rpathname := rpathname, winner := some (typ, newropath) }
    else
      throw (PyErr.nameError "cl")

/-- The whole loop over the dataset's applicable types, starting from all
loop locals unbound / `None` (line 542). -/
def resolveTypes (primIndex : String → Option (String × String))
    (redMap : String → Option String) (isSub : String → String → Bool)
    (types : List String) : Except PyErr ResolveState :=
  types.foldlM (resolveStep primIndex redMap isSub) { rpathname := none, winner := none }

/-- Lines 574-579 after the loop: the import of the winning module is
modelled as succeeding, after which line 578 evaluates
`centralPrimitivesIndex[rotype][1]` — but `rotype` is an unbound name
(the loop variable is `rotyp`), so this step always raises `NameError`
whenever it is reached. -/
def constructRO (st : ResolveState) : Except PyErr String :=
  match st.winner with
  | _ => .error (.nameError "rotype")

/-- The dataset branch of `RecipeLibrary.retrieveReductionObject` (lines
538-580).  Line 539 reads `gd, bnc = openIfName(file)`: the argument is
the Python built-in `file` type object, not the `dataset` parameter, so
the call raises `RecipeExcept` before the type loop can run. -/
def retrieveReductionObjectDataset (primIndex : String → Option (String × String))
    (redMap : String → Option String) (isSub : String → String → Bool)
    (getTypes : PyObj → List String) (dataset : PyObj) : Except PyErr String := do
  let (gd, _bnc) ← openIfName PyObj.builtinFile
  let st ← resolveTypes primIndex redMap isSub (getTypes gd)
  constructRO st

/-- A primitives index binding the related types `A` (subtype) and `B`
(supertype) to reduction object files. -/
def primIdxAB : String → Option (String × String) := fun t =>
  if t = "A" then some ("reduction_A.py", "APrimitives")
  else if t = "B" then some ("reduction_B.py", "BPrimitives")
  else none

/-- The reduction map for `primIdxAB`. -/
def redMapAB : String → Option String := fun f =>
  if f = "reduction_A.py" then some "/recipes/reduction_A.py"
  else if f = "reduction_B.py" then some "/recipes/reduction_B.py"
  else none

/-- The subtype relation in which `A` is a subtype of `B` and nothing
else is related. -/
def isSubAB : String → String → Bool := fun a b => a == "A" && b == "B"

/-- C1 at its failing input: with `A` a subtype of `B` and both types
registered, `retrieveReductionObject` on a dataset raises `RecipeExcept`
(BadArgument) unconditionally, because line 539 passes the built-in
`file` object to `openIfName`; and even taken on its own the type loop is
order-sensitive — candidate order `[A, B]` raises `NameError` on the
unbound name `cl` instead of selecting `A`, and the order `[B, A]`, whose
loop does select `A`, still dies at the unbound name `rotype` when the
reduction object is constructed. -/
theorem C1_resolver_code_raises :
    retrieveReductionObjectDataset primIdxAB redMapAB isSubAB (fun _ => ["A", "B"])
        (PyObj.str "N20090823S0102.fits")
      = .error (.recipeExcept
          "BadArgument in recipe utility function: openIfName(..)\n MUST be filename (string) or GeminiData instrument")
    ∧ resolveTypes primIdxAB redMapAB isSubAB ["A", "B"] = .error (.nameError "cl")
    ∧ (resolveTypes primIdxAB redMapAB isSubAB ["B", "A"]).map
        (fun st => st.winner.map Prod.fst) = .ok (some "A")
    ∧ Except.bind (resolveTypes primIdxAB redMapAB isSubAB ["B", "A"]) constructRO
      = .error (.nameError "rotype") :=
  ⟨rfl, rfl, rfl, rfl⟩

/-- A primitives index binding the unrelated types `X` and `Y`. -/
def primIdxXY : String → Option (String × String) := fun t =>
  if t = "X" then some ("reduction_X.py", "XPrimitives")
  else if t = "Y" then some ("reduction_Y.py", "YPrimitives")
  else none

/-- The reduction map for `primIdxXY`. -/
def redMapXY : String → Option String := fun f =>
  if f = "reduction_X.py" then some "/recipes/reduction_X.py"
  else if f = "reduction_Y.py" then some "/recipes/reduction_Y.py"
  else none

/-- C2 at its failing input: for two unrelated registered types the loop
raises `NameError` on the unbound name `cl` (line 568) before control can
reach the `CONFLICTING PRIMITIVES ASSIGNMENT` raise, so no
`RecipeExcept` naming the two competing types is ever produced. -/
theorem C2_conflict_code_raises :
    resolveTypes primIdxXY redMapXY (fun _ _ => false) ["X", "Y"]
      = .error (.nameError "cl") :=
  rfl

end RecipeManager
